import Mathlib

/-
  Verification of the ConnectProBot message-routing and tenant-lifecycle core.

  Shallow embedding of the repository's Python sources:
    config.py, database.py, handlers/user_chat.py, handlers/registration.py,
    services/message_router.py, services/bot_factory.py,
    services/trial_service.py, templates/footer.py.

  Timestamps are modelled as natural numbers measured in days
  (`datetime.utcnow()` is split into its absolute value, calendar date,
  hour and minute components, which is all the code inspects).
  The asyncpg record store is modelled as an explicit `DB` state threaded
  through each operation; every database helper below mirrors one function
  of database.py, in statement order.
-/

namespace ConnectProBot

/-- config.py: FREE_MODE_MESSAGE_LIMIT = 2 (messages per user per day). -/
def FREE_MODE_MESSAGE_LIMIT : Nat := 2

/-- config.py: FREE_MODE_START_HOUR = 9. -/
def FREE_MODE_START_HOUR : Nat := 9

/-- config.py: FREE_MODE_END_HOUR = 23. -/
def FREE_MODE_END_HOUR : Nat := 23

/-- config.py: FREE_MODE_END_MINUTE = 50. -/
def FREE_MODE_END_MINUTE : Nat := 50

/-- config.py: TRIAL_DAYS = 120 (4 months). -/
def TRIAL_DAYS : Nat := 120

/-- config.py: MESSAGE_RETENTION_DAYS = 72. -/
def MESSAGE_RETENTION_DAYS : Nat := 72

/-- One `datetime.utcnow()` observation, split into the components the code
reads: absolute timestamp `ts` (days), calendar `date`, wall-clock `hour`
and `minute`. -/
structure Instant where
  ts : Nat
  date : Nat
  hour : Nat
  minute : Nat
deriving DecidableEq

/-- A row of the `users` table (database.py, init_db). -/
structure UserRow where
  telegram_id : Int
  username : Option String
  first_name : Option String
  created_at : Nat
  last_active : Nat
deriving DecidableEq

/-- A row of the `owners` table (database.py, init_db). `bot_type` is the
string column with values `"this_bot"` (shared front door) or `"own_bot"`
(dedicated channel). -/
structure OwnerRow where
  telegram_id : Int
  username : Option String
  business_name : Option String
  category : Option String
  bio : Option String
  logo_file_id : Option String
  bot_type : String
  bot_token : Option String
  mini_bot_username : Option String
  trial_start : Option Nat
  trial_expired : Bool
  is_active : Bool
  created_at : Nat
  onboarding_step : String
deriving DecidableEq

/-- A row of the `conversations` table (database.py, init_db); rows are
keyed by the unique `(user_id, owner_id)` pair and carry the serial `id`
that `messages.conversation_id` references. -/
structure ConversationRow where
  id : Nat
  user_id : Int
  owner_id : Int
  bot_token : Option String
  created_at : Nat
  last_message : Nat
  message_count_today : Nat
  last_message_date : Nat
deriving DecidableEq

/-- A row of the `messages` table (database.py, init_db). -/
structure MessageRow where
  conversation_id : Nat
  sender_type : String
  message_text : String
  message_type : String
  telegram_message_id : Option Int
  created_at : Nat
deriving DecidableEq

/-- The record store: the four tables of database.py. `users` and `owners`
are keyed by `telegram_id`, `conversations` by the unique
`(user_id, owner_id)` pair; `next_conversation_id` models the serial
primary key of `conversations`. -/
structure DB where
  users : Int → Option UserRow
  owners : Int → Option OwnerRow
  conversations : Int × Int → Option ConversationRow
  messages : List MessageRow
  next_conversation_id : Nat

/-- database.py `create_user`: INSERT .. ON CONFLICT (telegram_id) DO UPDATE
SET username, first_name, last_active = CURRENT_TIMESTAMP, RETURNING *. -/
def create_user (db : DB) (now : Nat) (telegram_id : Int)
    (username first_name : Option String) : UserRow × DB :=
  let row : UserRow :=
    match db.users telegram_id with
    | none =>
      { telegram_id := telegram_id, username := username,
        first_name := first_name, created_at := now, last_active := now }
    | some old =>
      { old with
          username := username,
          first_name := first_name,
          last_active := now }
  (row, { db with users := fun i => if i = telegram_id then some row else db.users i })

/-- database.py `get_owner`. -/
def get_owner (db : DB) (telegram_id : Int) : Option OwnerRow :=
  db.owners telegram_id

/-- database.py `create_owner`: computes `trial_start = utcnow() if
bot_type == 'own_bot' else None`, then INSERT .. ON CONFLICT (telegram_id)
DO UPDATE SET bot_type = EXCLUDED.bot_type,
trial_start = COALESCE(owners.trial_start, EXCLUDED.trial_start). -/
def create_owner (db : DB) (now : Nat) (telegram_id : Int)
    (username : Option String) (bot_type : String) : OwnerRow × DB :=
  let trial_start : Option Nat := if bot_type = "own_bot" then some now else none
  let row : OwnerRow :=
    match db.owners telegram_id with
    | none =>
      { telegram_id := telegram_id, username := username, business_name := none,
        category := none, bio := none, logo_file_id := none,
        bot_type := bot_type, bot_token := none, mini_bot_username := none,
        trial_start := trial_start, trial_expired := false, is_active := true,
        created_at := now, onboarding_step := "name" }
    | some old =>
      { old with
          bot_type := bot_type,
          trial_start := match old.trial_start with
            | some t => some t
            | none => trial_start }
  (row, { db with owners := fun i => if i = telegram_id then some row else db.owners i })

/-- The `**kwargs` field deltas passed to database.py `update_owner` at its
call sites in the repository: handlers/owner_onboarding.py
(business_name, category, bio, logo_file_id, bot_token + mini_bot_username,
onboarding_step) and handlers/admin_panel.py (is_active). -/
inductive OwnerDelta
  | set_business_name (v : String)
  | set_category (v : String)
  | set_bio (v : String)
  | set_logo_file_id (v : String)
  | set_bot_token_and_username (tok uname : String)
  | set_onboarding_step (v : String)
  | set_is_active (v : Bool)
deriving DecidableEq

/-- Apply one `update_owner` field delta to an owner row. -/
def applyOwnerDelta (d : OwnerDelta) (o : OwnerRow) : OwnerRow :=
  match d with
  | .set_business_name v => { o with business_name := some v }
  | .set_category v => { o with category := some v }
  | .set_bio v => { o with bio := some v }
  | .set_logo_file_id v => { o with logo_file_id := some v }
  | .set_bot_token_and_username tok uname =>
      { o with bot_token := some tok, mini_bot_username := some uname }
  | .set_onboarding_step v => { o with onboarding_step := v }
  | .set_is_active v => { o with is_active := v }

/-- database.py `update_owner`: UPDATE owners SET .. WHERE telegram_id = $1
RETURNING *; returns none (and changes nothing) when no row matches. -/
def update_owner (db : DB) (telegram_id : Int) (d : OwnerDelta) :
    Option OwnerRow × DB :=
  match db.owners telegram_id with
  | none => (none, db)
  | some o =>
    let o' := applyOwnerDelta d o
    (some o',
      { db with owners := fun i => if i = telegram_id then some o' else db.owners i })

/-- database.py `get_or_create_conversation`: INSERT .. ON CONFLICT
(user_id, owner_id) DO UPDATE SET last_message = CURRENT_TIMESTAMP
RETURNING *; a fresh row gets the column defaults
message_count_today = 0 and last_message_date = CURRENT_DATE. -/
def get_or_create_conversation (db : DB) (now : Instant)
    (user_id owner_id : Int) (bot_token : Option String) :
    ConversationRow × DB :=
  match db.conversations (user_id, owner_id) with
  | some c =>
    let c' := { c with last_message := now.ts }
    (c', { db with conversations :=
      fun k => if k = (user_id, owner_id) then some c' else db.conversations k })
  | none =>
    let c : ConversationRow :=
      { id := db.next_conversation_id, user_id := user_id, owner_id := owner_id,
        bot_token := bot_token, created_at := now.ts, last_message := now.ts,
        message_count_today := 0, last_message_date := now.date }
    (c, { db with
      conversations :=
        fun k => if k = (user_id, owner_id) then some c else db.conversations k,
      next_conversation_id := db.next_conversation_id + 1 })

/-- database.py `save_message`: INSERT INTO messages .. RETURNING *. -/
def save_message (db : DB) (now : Nat) (conversation_id : Nat)
    (sender_type message_text message_type : String)
    (telegram_message_id : Option Int) : MessageRow × DB :=
  let m : MessageRow :=
    { conversation_id := conversation_id, sender_type := sender_type,
      message_text := message_text, message_type := message_type,
      telegram_message_id := telegram_message_id, created_at := now }
  (m, { db with messages := db.messages ++ [m] })

/-- database.py `check_message_limit`: no conversation row means allowed;
a row dated other than today is lazily reset (count := 0, date := today)
and allowed; otherwise allowed iff message_count_today < limit. -/
def check_message_limit (db : DB) (now : Instant) (user_id owner_id : Int)
    (limit : Nat) : Bool × DB :=
  match db.conversations (user_id, owner_id) with
  | none => (true, db)
  | some c =>
    if c.last_message_date ≠ now.date then
      let c' := { c with message_count_today := 0, last_message_date := now.date }
      (true, { db with conversations :=
        fun k => if k = (user_id, owner_id) then some c' else db.conversations k })
    else
      (c.message_count_today < limit, db)

/-- database.py `increment_message_count`: UPDATE conversations SET
message_count_today = message_count_today + 1,
last_message = CURRENT_TIMESTAMP WHERE user_id = $1 AND owner_id = $2
(a no-op when no row matches). -/
def increment_message_count (db : DB) (now : Instant)
    (user_id owner_id : Int) : DB :=
  match db.conversations (user_id, owner_id) with
  | none => db
  | some c =>
    let c' := { c with
                  message_count_today := c.message_count_today + 1,
                  last_message := now.ts }
    { db with conversations :=
      fun k => if k = (user_id, owner_id) then some c' else db.conversations k }

/-- database.py `check_trial_expired`: False when the owner is absent or has
no trial_start; True immediately when the trial_expired flag is already
set; otherwise, when utcnow() > trial_start + timedelta(days=120), the flag
is persisted (one-way) and True is returned; else False. -/
def check_trial_expired (db : DB) (now : Instant) (owner_id : Int) :
    Bool × DB :=
  match db.owners owner_id with
  | none => (false, db)
  | some o =>
    match o.trial_start with
    | none => (false, db)
    | some ts =>
      if o.trial_expired then (true, db)
      else if ts + TRIAL_DAYS < now.ts then
        let o' := { o with trial_expired := true }
        (true, { db with owners :=
          fun i => if i = owner_id then some o' else db.owners i })
      else (false, db)

/-- database.py `cleanup_old_messages`: DELETE FROM messages WHERE
created_at < utcnow() - MESSAGE_RETENTION_DAYS days; returns the count. -/
def cleanup_old_messages (db : DB) (now : Nat) : Nat × DB :=
  let cutoff := now - MESSAGE_RETENTION_DAYS
  let kept := db.messages.filter (fun m => decide (cutoff ≤ m.created_at))
  (db.messages.length - kept.length, { db with messages := kept })

/-- Terminal outcome of routing one inbound user message, abstracting the
reply text the handler sends back to the user (handlers/user_chat.py and
services/message_router.py): policy rejections, successful forward, or a
Transport failure during the forward. -/
inductive RouteOutcome
  | ownerNotFound
  | ownerInactive
  | trialExpired
  | outsideWindow
  | dailyLimitReached
  | delivered
  | deliveryFailed
deriving DecidableEq

/-- handlers/user_chat.py lines 88-121, the shared tail of
`user_message_handler` after all policy checks passed: conversation upsert,
message persistence, counter increment when the owner is in free
(`this_bot`) mode, then the forward attempt inside try/except.  `sendOk`
models whether `context.bot.send_message` to the owner raises.
services/message_router.py lines 61-93 perform the same sequence. -/
def forward_user_message (db : DB) (now : Instant) (user_id owner_id : Int)
    (owner : OwnerRow) (message_text : String) (message_id : Int)
    (sendOk : Bool) : RouteOutcome × DB :=
  let r1 := get_or_create_conversation db now user_id owner_id owner.bot_token
  let r2 := save_message r1.2 now.ts r1.1.id "user" message_text "text" (some message_id)
  let db3 :=
    if owner.bot_type = "this_bot" then
      increment_message_count r2.2 now user_id owner_id
    else r2.2
  if sendOk then (.delivered, db3) else (.deliveryFailed, db3)

/-- handlers/user_chat.py `user_message_handler`, from the point where the
addressed owner id has been resolved from `context.user_data` (lines
45-121): owner lookup, active check, trial-expiry check for `own_bot`
owners, active-window and daily-limit checks for free-mode owners, then
persistence and the forward attempt. -/
def user_message_handler (db : DB) (now : Instant) (user_id owner_id : Int)
    (message_text : String) (message_id : Int) (sendOk : Bool) :
    RouteOutcome × DB :=
  match get_owner db owner_id with
  | none => (.ownerNotFound, db)
  | some owner =>
    if owner.is_active = false then (.ownerInactive, db)
    else if owner.bot_type = "own_bot" then
      let r := check_trial_expired db now owner_id
      if r.1 then (.trialExpired, r.2)
      else forward_user_message r.2 now user_id owner_id owner message_text message_id sendOk
    else
      if now.hour < FREE_MODE_START_HOUR ∨
          (FREE_MODE_END_HOUR ≤ now.hour ∧ FREE_MODE_END_MINUTE ≤ now.minute) then
        (.outsideWindow, db)
      else
        let r := check_message_limit db now user_id owner_id FREE_MODE_MESSAGE_LIMIT
        if r.1 = false then (.dailyLimitReached, r.2)
        else forward_user_message r.2 now user_id owner_id owner message_text message_id sendOk

/-- services/message_router.py `MessageRouter.route_user_message` (lines
35-93): owner lookup, active check, daily-limit check for `this_bot`
owners (no trial or window check on this path), persistence, counter
increment for `this_bot`, then the forward attempt.  The source returns a
`(success, reply_text)` pair; `RouteOutcome` abstracts that pair. -/
def route_user_message (db : DB) (now : Instant) (user_id owner_id : Int)
    (message_text : String) (message_id : Int) (sendOk : Bool) :
    RouteOutcome × DB :=
  match get_owner db owner_id with
  | none => (.ownerNotFound, db)
  | some owner =>
    if owner.is_active = false then (.ownerInactive, db)
    else
      let r : Bool × DB :=
        if owner.bot_type = "this_bot" then
          check_message_limit db now user_id owner_id FREE_MODE_MESSAGE_LIMIT
        else (true, db)
      if r.1 = false then (.dailyLimitReached, r.2)
      else forward_user_message r.2 now user_id owner_id owner message_text message_id sendOk

/-- One live python-telegram-bot `Application` built by
services/bot_factory.py `register_mini_bot`: the tenant it serves and the
credential it was opened with.  `app_id` distinguishes distinct builds of
applications with equal tokens. -/
structure MiniBotApp where
  app_id : Nat
  owner_id : Int
  token : String
deriving DecidableEq

/-- The in-memory state of services/bot_factory.py: the module-global
`active_mini_bots` registry (owner id to application handle) and the set
of applications whose `updater.start_polling()` succeeded and that have
not been stopped (`polling` — the live inbound streams). -/
structure FactoryState where
  active_mini_bots : Int → Option MiniBotApp
  polling : List MiniBotApp
  next_app_id : Nat

/-- services/bot_factory.py `register_mini_bot` (lines 30-56), with its two
failure points made explicit: `buildOk` is whether
`Application.builder().token(token).build()` succeeds, and `openOk` is
whether the subsequent `initialize`/`start`/`updater.start_polling()`
sequence succeeds.  The source stores the handle in `active_mini_bots`
BEFORE starting polling, and its `except` clause only logs and returns
False, so a failed open leaves the stored handle in place; no existing
handle for `owner_id` is stopped before the overwrite. -/
def register_mini_bot (st : FactoryState) (token : String) (owner_id : Int)
    (buildOk openOk : Bool) : Bool × FactoryState :=
  if buildOk = false then (false, st)
  else
    let app : MiniBotApp :=
      { app_id := st.next_app_id, owner_id := owner_id, token := token }
    let st1 : FactoryState :=
      { st with
          active_mini_bots :=
            fun i => if i = owner_id then some app else st.active_mini_bots i,
          next_app_id := st.next_app_id + 1 }
    if openOk = false then (false, st1)
    else (true, { st1 with polling := app :: st1.polling })

/-- services/bot_factory.py `stop_mini_bot` (lines 59-69): when a handle is
registered for `owner_id`, stop its polling stream, remove it from the
registry and return True; otherwise return False without changes. -/
def stop_mini_bot (st : FactoryState) (owner_id : Int) : Bool × FactoryState :=
  match st.active_mini_bots owner_id with
  | none => (false, st)
  | some app =>
    (true,
      { st with
          active_mini_bots :=
            fun i => if i = owner_id then none else st.active_mini_bots i,
          polling := st.polling.erase app })

/-- The record-store mutating operations of the system, with the argument
shapes they are invoked with anywhere in the repository (`update_owner`
only ever receives the field deltas enumerated in `OwnerDelta`). -/
inductive Op
  | op_create_user (now : Nat) (id : Int) (username first_name : Option String)
  | op_create_owner (now : Nat) (id : Int) (username : Option String) (bot_type : String)
  | op_update_owner (id : Int) (d : OwnerDelta)
  | op_get_or_create_conversation (now : Instant) (u o : Int) (tok : Option String)
  | op_save_message (now : Nat) (cid : Nat) (sender text kind : String) (tmid : Option Int)
  | op_check_message_limit (now : Instant) (u o : Int) (cap : Nat)
  | op_increment_message_count (now : Instant) (u o : Int)
  | op_check_trial_expired (now : Instant) (o : Int)
  | op_cleanup_old_messages (now : Nat)

/-- The state effect of one record-store operation. -/
def applyOp (op : Op) (db : DB) : DB :=
  match op with
  | .op_create_user now id u f => (create_user db now id u f).2
  | .op_create_owner now id u bt => (create_owner db now id u bt).2
  | .op_update_owner id d => (update_owner db id d).2
  | .op_get_or_create_conversation now u o tok =>
      (get_or_create_conversation db now u o tok).2
  | .op_save_message now cid s t k tm => (save_message db now cid s t k tm).2
  | .op_check_message_limit now u o cap => (check_message_limit db now u o cap).2
  | .op_increment_message_count now u o => increment_message_count db now u o
  | .op_check_trial_expired now o => (check_trial_expired db now o).2
  | .op_cleanup_old_messages now => (cleanup_old_messages db now).2

/-- A sequence of record-store operations, applied left to right. -/
def applyOps (ops : List Op) (db : DB) : DB :=
  ops.foldl (fun d op => applyOp op d) db

/-- config.py: FOOTER_TEXT. -/
def FOOTER_TEXT : String := "This Bot was made using @Connectsprobot"

/-- The full block `"\n\n—\n" + FOOTER_TEXT` that templates/footer.py
`add_footer` appends and `remove_footer` strips, as a character list. -/
def footerBlock : List Char := "\n\n—\n".toList ++ FOOTER_TEXT.toList

/-- templates/footer.py `add_footer`:
`f"{message}\n\n—\n{FOOTER_TEXT}"`, on the character-list model of
python strings. -/
def add_footer (message : List Char) : List Char := message ++ footerBlock

/-- Python `s.replace(pat, "")`: delete every occurrence of `pat`,
scanning left to right without overlap. -/
def removeOccurrences (pat : List Char) (s : List Char) : List Char :=
  if h : pat ≠ [] ∧ pat <+: s then
    removeOccurrences pat (s.drop pat.length)
  else
    match s with
    | [] => []
    | c :: rest => c :: removeOccurrences pat rest
termination_by s.length
decreasing_by
  · have h1 : 0 < pat.length := List.length_pos.mpr h.1
    have h2 : pat.length ≤ s.length := h.2.length_le
    simp only [List.length_drop]
    omega
  · simp

/-- templates/footer.py `remove_footer`: when FOOTER_TEXT occurs in the
message, delete every occurrence of the footer block
(`message.replace(f"\n\n—\n{FOOTER_TEXT}", "")`); otherwise return the
message unchanged. -/
def remove_footer (message : List Char) : List Char :=
  if FOOTER_TEXT.toList <:+: message then removeOccurrences footerBlock message
  else message

/-! Concrete fixture states used by counterexamples and witnesses. -/

/-- An empty record store. -/
def emptyDB : DB :=
  { users := fun _ => none, owners := fun _ => none,
    conversations := fun _ => none, messages := [], next_conversation_id := 1 }

/-- A DedicatedChannel (`own_bot`) owner whose trial started at time 0 and
whose expiry flag is not yet set. -/
def trialOwner : OwnerRow :=
  { telegram_id := 3, username := none, business_name := none, category := none,
    bio := none, logo_file_id := none, bot_type := "own_bot",
    bot_token := some "TOK", mini_bot_username := none, trial_start := some 0,
    trial_expired := false, is_active := true, created_at := 0,
    onboarding_step := "done" }

/-- A store holding only `trialOwner` under id 3. -/
def dbTrial : DB :=
  { emptyDB with owners := fun i => if i = 3 then some trialOwner else none }

/-- An observation 121 days in, one day past the 120-day trial window. -/
def nowLate : Instant := { ts := 121, date := 121, hour := 10, minute := 0 }

/-- C5 counterexample: the claim says `check_trial_expired` (the
mark-trial-expired operation) returns true exactly once, on the fresh
transition, and not on subsequent calls.  On `trialOwner` one day past the
window, the first call returns true and persists the flag — and the second
call returns true again, refuting the claim. -/
theorem C5_counterexample :
    (check_trial_expired dbTrial nowLate 3).1 = true ∧
    ((check_trial_expired dbTrial nowLate 3).2.owners 3).map OwnerRow.trial_expired
      = some true ∧
    (check_trial_expired (check_trial_expired dbTrial nowLate 3).2 nowLate 3).1
      = true := by
  decide

/-- C5 amended: `check_trial_expired` returns whether the trial is
expired, not whether the call was the fresh transition: on an owner past
the window with the flag unset, the call returns true and persists the
flag, and every subsequent call (at any time) returns true again. -/
theorem C5_amended_flag_semantics (db : DB) (now now' : Instant) (oid : Int)
    (o : OwnerRow) (s : Nat)
    (ho : db.owners oid = some o) (hs : o.trial_start = some s)
    (hf : o.trial_expired = false) (hlate : s + TRIAL_DAYS < now.ts) :
    (check_trial_expired db now oid).1 = true ∧
    (check_trial_expired db now oid).2.owners oid
      = some { o with trial_expired := true } ∧
    (check_trial_expired (check_trial_expired db now oid).2 now' oid).1 = true := by
  simp [check_trial_expired, ho, hs, hf, hlate]

/-- C5 witness: the amended theorem applied to `trialOwner` one day past
its window. -/
theorem C5_amended_flag_semantics_witness :
    (dbTrial.owners 3 = some trialOwner ∧ trialOwner.trial_start = some 0 ∧
      trialOwner.trial_expired = false ∧ 0 + TRIAL_DAYS < nowLate.ts) ∧
    ((check_trial_expired dbTrial nowLate 3).1 = true ∧
      (check_trial_expired dbTrial nowLate 3).2.owners 3
        = some { trialOwner with trial_expired := true } ∧
      (check_trial_expired (check_trial_expired dbTrial nowLate 3).2 nowLate 3).1
        = true) :=
  ⟨⟨by decide, rfl, rfl, by decide⟩,
    C5_amended_flag_semantics dbTrial nowLate nowLate 3 trialOwner 0
      (by decide) rfl rfl (by decide)⟩

/-- An empty mini-bot factory state. -/
def factory0 : FactoryState :=
  { active_mini_bots := fun _ => none, polling := [], next_app_id := 0 }

/-- C6 counterexample: the claim says a failed Transport open leaves the
tenant registry with no handle for the owner.  With a successful
application build but a failed open, `register_mini_bot` returns False yet
the registry still holds the freshly inserted handle for owner 1. -/
theorem C6_counterexample :
    (register_mini_bot factory0 "TOKEN_A" 1 true false).1 = false ∧
    (register_mini_bot factory0 "TOKEN_A" 1 true false).2.active_mini_bots 1
      = some { app_id := 0, owner_id := 1, token := "TOKEN_A" } := by
  decide

/-- C6 amended: `register_mini_bot` inserts the handle into
`active_mini_bots` BEFORE attempting the Transport open; a failed open
surfaces the failure to the caller (returns false) and starts no polling
stream, but leaves the just-inserted handle in the registry; only a
failure at application build time leaves the registry unchanged. -/
theorem C6_amended_register_failure (st : FactoryState) (tok : String)
    (oid : Int) (b : Bool) :
    ((register_mini_bot st tok oid true false).1 = false ∧
      (register_mini_bot st tok oid true false).2.active_mini_bots oid
        = some { app_id := st.next_app_id, owner_id := oid, token := tok } ∧
      (register_mini_bot st tok oid true false).2.polling = st.polling) ∧
    ((register_mini_bot st tok oid false b).1 = false ∧
      (register_mini_bot st tok oid false b).2 = st) := by
  simp [register_mini_bot]

/-- Factory state after a successful registration of owner 1 with
credential "credA". -/
def factoryA : FactoryState := (register_mini_bot factory0 "credA" 1 true true).2

/-- Factory state after re-registering owner 1 with credential "credB". -/
def factoryB : FactoryState := (register_mini_bot factoryA "credB" 1 true true).2

/-- C7 counterexample: the claim says re-registration fully stops the old
handle before starting the new one (never two live handles).  After
register(1, credA) then register(1, credB), the registry maps owner 1 to
the credB handle, but the credA application is still polling: two live
streams remain. -/
theorem C7_counterexample :
    (factoryB.active_mini_bots 1).map MiniBotApp.token = some "credB" ∧
    ({ app_id := 0, owner_id := 1, token := "credA" } : MiniBotApp) ∈ factoryB.polling ∧
    factoryB.polling.length = 2 := by
  decide

/-- C7 amended: register(owner, credA) then register(owner, credB) (both
successful) leaves the registry with exactly one handle for the owner,
using credB — but the credA handle is never transitioned through Stopping:
its polling stream remains live alongside credB's (a leaked stream),
because `register_mini_bot` overwrites the registry entry without stopping
an existing handle. -/
theorem C7_amended_replace_leaks_stream (st : FactoryState) (oid : Int)
    (credA credB : String) :
    ((register_mini_bot (register_mini_bot st credA oid true true).2 credB oid true true).2.active_mini_bots oid
      = some { app_id := st.next_app_id + 1, owner_id := oid, token := credB }) ∧
    ({ app_id := st.next_app_id, owner_id := oid, token := credA } : MiniBotApp) ∈
      (register_mini_bot (register_mini_bot st credA oid true true).2 credB oid true true).2.polling := by
  simp [register_mini_bot]

/-- C9 counterexample: owner 9 first registers in DedicatedChannel mode at
time 50 (acquiring trial_start = 50), then re-registers in SharedFrontDoor
mode at time 60.  The resulting owner is in `this_bot` mode yet keeps the
non-null trial window, refuting the invariant as claimed. -/
theorem C9_counterexample :
    (((create_owner (create_owner emptyDB 50 9 none "own_bot").2 60 9 none "this_bot").2.owners 9).map
        OwnerRow.bot_type = some "this_bot") ∧
    (((create_owner (create_owner emptyDB 50 9 none "own_bot").2 60 9 none "this_bot").2.owners 9).map
        OwnerRow.trial_start = some (some 50)) := by
  decide

/-- C9 amended: a freshly created SharedFrontDoor (`this_bot`) owner has a
null trial window, and no `update_owner` call site of the repository ever
sets one; but re-registering an existing owner under SharedFrontDoor mode
preserves any previously acquired trial_start (the COALESCE in
`create_owner` keeps the old value), so the invariant fails exactly in the
DedicatedChannel-to-SharedFrontDoor re-registration case. -/
theorem C9_amended_trial_start_lifecycle (db : DB) (now : Nat) (id : Int)
    (u : Option String) :
    (db.owners id = none →
      ((create_owner db now id u "this_bot").2.owners id).map OwnerRow.trial_start
        = some none) ∧
    (∀ old, db.owners id = some old →
      ((create_owner db now id u "this_bot").2.owners id).map OwnerRow.bot_type
          = some "this_bot" ∧
      ((create_owner db now id u "this_bot").2.owners id).map OwnerRow.trial_start
          = some old.trial_start) ∧
    (∀ d, ((update_owner db id d).2.owners id).map OwnerRow.trial_start
        = (db.owners id).map OwnerRow.trial_start) := by
  refine ⟨fun h => ?_, fun old h => ?_, fun d => ?_⟩
  · simp [create_owner, h]
  · cases hts : old.trial_start <;> simp [create_owner, h, hts]
  · cases h : db.owners id with
    | none => simp [update_owner, h]
    | some o => cases d <;> simp [update_owner, h, applyOwnerDelta]

/-- C9 witness: the amended theorem applied to the concrete
own_bot-then-this_bot re-registration state. -/
theorem C9_amended_trial_start_lifecycle_witness :
    (emptyDB.owners 9 = none ∧
      ((create_owner emptyDB 60 9 none "this_bot").2.owners 9).map OwnerRow.trial_start
        = some none) ∧
    ((create_owner emptyDB 50 9 none "own_bot").2.owners 9
        = some (create_owner emptyDB 50 9 none "own_bot").1 ∧
      ((create_owner (create_owner emptyDB 50 9 none "own_bot").2 60 9 none "this_bot").2.owners 9).map
          OwnerRow.trial_start
        = some (create_owner emptyDB 50 9 none "own_bot").1.trial_start) :=
  ⟨⟨rfl, (C9_amended_trial_start_lifecycle emptyDB 60 9 none).1 rfl⟩,
    ⟨by decide,
      (((C9_amended_trial_start_lifecycle (create_owner emptyDB 50 9 none "own_bot").2 60 9 none).2.1
        (create_owner emptyDB 50 9 none "own_bot").1) (by decide)).2⟩⟩

/-- A SharedFrontDoor (`this_bot`) owner. -/
def freeOwner : OwnerRow :=
  { telegram_id := 1, username := none, business_name := none, category := none,
    bio := none, logo_file_id := none, bot_type := "this_bot",
    bot_token := none, mini_bot_username := none, trial_start := none,
    trial_expired := false, is_active := true, created_at := 0,
    onboarding_step := "done" }

/-- A conversation between user 7 and owner 1 with today's counter at 0. -/
def freeConv : ConversationRow :=
  { id := 1, user_id := 7, owner_id := 1, bot_token := none, created_at := 0,
    last_message := 0, message_count_today := 0, last_message_date := 5 }

/-- A store holding `freeOwner` under id 1 and `freeConv` for (7, 1). -/
def dbFree : DB :=
  { emptyDB with
      owners := fun i => if i = 1 then some freeOwner else none,
      conversations := fun k => if k = (7, 1) then some freeConv else none,
      next_conversation_id := 2 }

/-- An observation on day 5 at 10:00, inside the active window. -/
def nowMid : Instant := { ts := 5, date := 5, hour := 10, minute := 0 }

/-- C1 counterexample: the claim says a failed forward leaves the daily
counter unchanged.  Routing a message from user 7 to the SharedFrontDoor
owner 1 with the Transport send failing yields DeliveryFailed, yet the
conversation counter has moved from 0 to 1: the increment happens before
the forward attempt, so the failed forward consumed quota. -/
theorem C1_counterexample :
    (user_message_handler dbFree nowMid 7 1 "hi" 100 false).1 = .deliveryFailed ∧
    ((user_message_handler dbFree nowMid 7 1 "hi" 100 false).2.conversations (7, 1)).map
        ConversationRow.message_count_today = some 1 ∧
    (dbFree.conversations (7, 1)).map ConversationRow.message_count_today
      = some 0 := by
  decide

/-- C1 amended: the daily counter increment is committed after persistence
but BEFORE the forward attempt, and the try/except around the forward has
no state effect: the resulting record store is identical whether the
Transport send succeeds or fails, in both `user_message_handler` and
`MessageRouter.route_user_message` — so a failed forward consumes quota
exactly as a successful one does. -/
theorem C1_amended_counter_committed_before_forward (db : DB) (now : Instant)
    (u o : Int) (text : String) (mid : Int) :
    (user_message_handler db now u o text mid true).2
      = (user_message_handler db now u o text mid false).2 ∧
    (route_user_message db now u o text mid true).2
      = (route_user_message db now u o text mid false).2 := by
  constructor
  · cases hw : get_owner db o with
    | none => simp only [user_message_handler, hw]
    | some owner =>
      simp only [user_message_handler, hw]
      repeat' split
      all_goals rfl
  · cases hw : get_owner db o with
    | none => simp only [route_user_message, hw]
    | some owner =>
      simp only [route_user_message, hw]
      repeat' split
      all_goals rfl

/-- C2 (confirmed): for a DedicatedChannel (`own_bot`) owner that is active
and whose trial is expired — flag already set, or the window elapsed —
`user_message_handler` returns the TrialExpired rejection, and the only
persistence effect is the one-way trial-expired flag transition on that
owner: conversations, messages, users and every other owner are untouched. -/
theorem C2_trial_expiry_rejected_before_persistence (db : DB) (now : Instant)
    (u oid : Int) (text : String) (mid : Int) (sendOk : Bool) (o : OwnerRow)
    (s : Nat)
    (ho : db.owners oid = some o) (hb : o.bot_type = "own_bot")
    (ha : o.is_active = true) (hs : o.trial_start = some s)
    (hexp : o.trial_expired = true ∨ s + TRIAL_DAYS < now.ts) :
    (user_message_handler db now u oid text mid sendOk).1 = .trialExpired ∧
    (user_message_handler db now u oid text mid sendOk).2.conversations
      = db.conversations ∧
    (user_message_handler db now u oid text mid sendOk).2.messages
      = db.messages ∧
    (user_message_handler db now u oid text mid sendOk).2.users = db.users ∧
    (∀ i, i ≠ oid →
      (user_message_handler db now u oid text mid sendOk).2.owners i
        = db.owners i) ∧
    (user_message_handler db now u oid text mid sendOk).2.owners oid
      = some { o with trial_expired := true } := by
  cases hfe : o.trial_expired with
  | true =>
    have heta : ({ o with trial_expired := true } : OwnerRow) = o := by
      cases o; simp_all
    rw [heta]
    simp only [user_message_handler, get_owner, ho, ha, hb, check_trial_expired,
      hs, hfe]
    exact ⟨rfl, rfl, rfl, rfl, fun i hi => rfl, ho⟩
  | false =>
    have hlt : s + TRIAL_DAYS < now.ts := by
      rcases hexp with h | h
      · rw [hfe] at h; exact absurd h (by simp)
      · exact h
    simp only [user_message_handler, get_owner, ho, ha, hb, check_trial_expired,
      hs, hfe, hlt]
    refine ⟨by simp, by simp, by simp, by simp, fun i hi => by simp [hi], by simp⟩

/-- C2 witness: the theorem applied to `trialOwner` one day past its
120-day window, with the flag not yet set. -/
theorem C2_trial_expiry_rejected_before_persistence_witness :
    (dbTrial.owners 3 = some trialOwner ∧ trialOwner.bot_type = "own_bot" ∧
      trialOwner.is_active = true ∧ trialOwner.trial_start = some 0 ∧
      0 + TRIAL_DAYS < nowLate.ts) ∧
    ((user_message_handler dbTrial nowLate 7 3 "hi" 100 true).1 = .trialExpired ∧
      (user_message_handler dbTrial nowLate 7 3 "hi" 100 true).2.conversations
        = dbTrial.conversations ∧
      (user_message_handler dbTrial nowLate 7 3 "hi" 100 true).2.messages
        = dbTrial.messages ∧
      (user_message_handler dbTrial nowLate 7 3 "hi" 100 true).2.users
        = dbTrial.users ∧
      (∀ i, i ≠ 3 →
        (user_message_handler dbTrial nowLate 7 3 "hi" 100 true).2.owners i
          = dbTrial.owners i) ∧
      (user_message_handler dbTrial nowLate 7 3 "hi" 100 true).2.owners 3
        = some { trialOwner with trial_expired := true }) :=
  ⟨⟨by decide, rfl, rfl, rfl, by decide⟩,
    C2_trial_expiry_rejected_before_persistence dbTrial nowLate 7 3 "hi" 100
      true trialOwner 0 (by decide) rfl rfl rfl (Or.inr (by decide))⟩

/-- C8 (confirmed): for an active SharedFrontDoor owner, the handler
rejects with OutsideActiveWindow exactly when the wall-clock time is
outside the closed-open interval [START_HOUR:00, END_HOUR:END_MINUTE) =
[9:00, 23:50); any time at or after 9:00 and strictly before 23:50 is
never rejected for window reasons.  (With the configured END_HOUR = 23
being the largest hour, the source's condition
`hour < 9 or (hour >= 23 and minute >= 50)` coincides with that
interval.) -/
theorem C8_active_window_iff (db : DB) (now : Instant) (u oid : Int)
    (text : String) (mid : Int) (sendOk : Bool) (o : OwnerRow)
    (ho : db.owners oid = some o) (hb : o.bot_type = "this_bot")
    (ha : o.is_active = true) (hh : now.hour < 24) (hm : now.minute < 60) :
    ((user_message_handler db now u oid text mid sendOk).1 = .outsideWindow ↔
      ¬ (FREE_MODE_START_HOUR * 60 ≤ now.hour * 60 + now.minute ∧
         now.hour * 60 + now.minute
           < FREE_MODE_END_HOUR * 60 + FREE_MODE_END_MINUTE)) := by
  simp only [user_message_handler, get_owner, ho, ha, hb]
  by_cases hw : now.hour < FREE_MODE_START_HOUR ∨
      (FREE_MODE_END_HOUR ≤ now.hour ∧ FREE_MODE_END_MINUTE ≤ now.minute)
  · have hout : ¬ (FREE_MODE_START_HOUR * 60 ≤ now.hour * 60 + now.minute ∧
        now.hour * 60 + now.minute
          < FREE_MODE_END_HOUR * 60 + FREE_MODE_END_MINUTE) := by
      simp only [FREE_MODE_START_HOUR, FREE_MODE_END_HOUR,
        FREE_MODE_END_MINUTE] at hw ⊢
      omega
    simp [if_pos hw, hout]
  · have hin : FREE_MODE_START_HOUR * 60 ≤ now.hour * 60 + now.minute ∧
        now.hour * 60 + now.minute
          < FREE_MODE_END_HOUR * 60 + FREE_MODE_END_MINUTE := by
      simp only [FREE_MODE_START_HOUR, FREE_MODE_END_HOUR,
        FREE_MODE_END_MINUTE] at hw ⊢
      omega
    simp only [if_neg hw]
    by_cases hl : (check_message_limit db now u oid FREE_MODE_MESSAGE_LIMIT).1 = false
    · simp [hl, hin]
    · cases sendOk <;> simp [hl, hin, forward_user_message]

/-- C8 witness: the theorem applied to `freeOwner` at 10:00 (inside the
window). -/
theorem C8_active_window_iff_witness :
    (dbFree.owners 1 = some freeOwner ∧ freeOwner.bot_type = "this_bot" ∧
      freeOwner.is_active = true ∧ nowMid.hour < 24 ∧ nowMid.minute < 60) ∧
    ((user_message_handler dbFree nowMid 7 1 "hi" 100 true).1 = .outsideWindow ↔
      ¬ (FREE_MODE_START_HOUR * 60 ≤ nowMid.hour * 60 + nowMid.minute ∧
         nowMid.hour * 60 + nowMid.minute
           < FREE_MODE_END_HOUR * 60 + FREE_MODE_END_MINUTE)) :=
  ⟨⟨by decide, rfl, rfl, by decide, by decide⟩,
    C8_active_window_iff dbFree nowMid 7 1 "hi" 100 true freeOwner
      (by decide) rfl rfl (by decide) (by decide)⟩

/-- `get_or_create_conversation` never touches the owners table. -/
lemma get_or_create_conversation_owners (db : DB) (now : Instant)
    (u o : Int) (tok : Option String) :
    (get_or_create_conversation db now u o tok).2.owners = db.owners := by
  unfold get_or_create_conversation
  repeat' split
  all_goals rfl

/-- `check_message_limit` never touches the owners table. -/
lemma check_message_limit_owners (db : DB) (now : Instant) (u o : Int)
    (cap : Nat) :
    (check_message_limit db now u o cap).2.owners = db.owners := by
  unfold check_message_limit
  repeat' split
  all_goals rfl

/-- `increment_message_count` never touches the owners table. -/
lemma increment_message_count_owners (db : DB) (now : Instant) (u o : Int) :
    (increment_message_count db now u o).owners = db.owners := by
  unfold increment_message_count
  repeat' split
  all_goals rfl

/-- `applyOwnerDelta` — that is, every `update_owner` call site of the
repository — never touches the trial fields. -/
lemma applyOwnerDelta_trial_fields (d : OwnerDelta) (o : OwnerRow) :
    (applyOwnerDelta d o).trial_expired = o.trial_expired ∧
    (applyOwnerDelta d o).trial_start = o.trial_start := by
  cases d <;> simp [applyOwnerDelta]

/-- Every record-store operation of the system preserves a set
trial-expired flag together with its non-null trial_start: no operation
clears either field of an already-flagged owner. -/
lemma applyOp_preserves_flagged (op : Op) (db : DB) (oid : Int) (o : OwnerRow)
    (s : Nat) (ho : db.owners oid = some o) (hf : o.trial_expired = true)
    (hs : o.trial_start = some s) :
    ∃ o', (applyOp op db).owners oid = some o' ∧ o'.trial_expired = true ∧
      o'.trial_start = some s := by
  cases op with
  | op_create_user now id u f => exact ⟨o, ho, hf, hs⟩
  | op_create_owner now id u bt =>
    by_cases hid : oid = id
    · subst hid
      refine ⟨{ o with bot_type := bt, trial_start := some s }, ?_, hf, rfl⟩
      simp only [applyOp, create_owner, ho, hs]
      simp
    · refine ⟨o, ?_, hf, hs⟩
      simp only [applyOp, create_owner]
      rw [if_neg hid]
      exact ho
  | op_update_owner id d =>
    by_cases hid : oid = id
    · subst hid
      simp only [applyOp, update_owner, ho]
      exact ⟨applyOwnerDelta d o, by simp,
        (applyOwnerDelta_trial_fields d o).1.trans hf,
        (applyOwnerDelta_trial_fields d o).2.trans hs⟩
    · cases hrow : db.owners id with
      | none => simp only [applyOp, update_owner, hrow]; exact ⟨o, ho, hf, hs⟩
      | some o2 =>
        simp only [applyOp, update_owner, hrow]
        refine ⟨o, ?_, hf, hs⟩
        rw [if_neg hid]
        exact ho
  | op_get_or_create_conversation now u o2 tok =>
    refine ⟨o, ?_, hf, hs⟩
    simp only [applyOp]
    rw [get_or_create_conversation_owners]
    exact ho
  | op_save_message now cid sn tx kd tm => exact ⟨o, ho, hf, hs⟩
  | op_check_message_limit now u o2 cap =>
    refine ⟨o, ?_, hf, hs⟩
    simp only [applyOp]
    rw [check_message_limit_owners]
    exact ho
  | op_increment_message_count now u o2 =>
    refine ⟨o, ?_, hf, hs⟩
    simp only [applyOp]
    rw [increment_message_count_owners]
    exact ho
  | op_check_trial_expired now o2 =>
    by_cases hid : oid = o2
    · subst hid
      simp only [applyOp, check_trial_expired, ho, hs, hf]
      exact ⟨o, ho, hf, hs⟩
    · refine ⟨o, ?_, hf, hs⟩
      simp only [applyOp, check_trial_expired]
      repeat' split
      all_goals dsimp only
      all_goals try exact ho
      rw [if_neg hid]
      exact ho
  | op_cleanup_old_messages now => exact ⟨o, ho, hf, hs⟩

/-- C4 (confirmed): once the trial-expired flag is set on a
DedicatedChannel owner (a state the fresh transition in
`check_trial_expired` produces only with a non-null trial_start), every
sequence of record-store operations of the system preserves the flag and
the trial_start, and after any such sequence every admission check
`check_trial_expired` returns true regardless of the wall-clock instant
passed to it: the transition is monotone and never undone. -/
theorem C4_trial_expiry_monotonic (ops : List Op) (db : DB) (oid : Int)
    (o : OwnerRow) (s : Nat) (ho : db.owners oid = some o)
    (hf : o.trial_expired = true) (hs : o.trial_start = some s) :
    ∃ o', (applyOps ops db).owners oid = some o' ∧ o'.trial_expired = true ∧
      o'.trial_start = some s ∧
      ∀ now, (check_trial_expired (applyOps ops db) now oid).1 = true := by
  induction ops generalizing db o with
  | nil =>
    exact ⟨o, ho, hf, hs,
      fun now => by simp [applyOps, check_trial_expired, ho, hs, hf]⟩
  | cons op rest ih =>
    obtain ⟨o1, h1, hf1, hs1⟩ := applyOp_preserves_flagged op db oid o s ho hf hs
    exact ih (applyOp op db) o1 h1 hf1 hs1

/-- An owner whose trial-expired flag is set. -/
def flaggedOwner : OwnerRow := { trialOwner with trial_expired := true }

/-- A store holding only `flaggedOwner` under id 3. -/
def dbFlagged : DB :=
  { emptyDB with owners := fun i => if i = 3 then some flaggedOwner else none }

/-- A sample operation sequence touching the flagged owner: an admin pause,
a re-run of the expiry check, a mode re-registration, and a retention
sweep. -/
def opsC4 : List Op :=
  [Op.op_update_owner 3 (OwnerDelta.set_is_active false),
   Op.op_check_trial_expired nowMid 3,
   Op.op_create_owner 200 3 none "this_bot",
   Op.op_cleanup_old_messages 500]

/-- C4 witness: the theorem applied to `flaggedOwner` across `opsC4`. -/
theorem C4_trial_expiry_monotonic_witness :
    (dbFlagged.owners 3 = some flaggedOwner ∧
      flaggedOwner.trial_expired = true ∧ flaggedOwner.trial_start = some 0) ∧
    (∃ o', (applyOps opsC4 dbFlagged).owners 3 = some o' ∧
      o'.trial_expired = true ∧ o'.trial_start = some 0 ∧
      ∀ now, (check_trial_expired (applyOps opsC4 dbFlagged) now 3).1 = true) :=
  ⟨⟨by decide, rfl, rfl⟩,
    C4_trial_expiry_monotonic opsC4 dbFlagged 3 flaggedOwner 0 (by decide) rfl rfl⟩

/-- One inbound free-mode message attempt at the record-store level,
parameterized by the cap: the sequence user_chat.py lines 79-101 (and
message_router.py lines 56-72) performs with cap = FREE_MODE_MESSAGE_LIMIT
— limit check (with lazy date reset), then on success conversation upsert,
message persistence and counter increment; on failure the
DailyLimitReached rejection with no further persistence. -/
def attempt_user_message (db : DB) (now : Instant) (u o : Int)
    (tok : Option String) (text : String) (mid : Int) (cap : Nat) : Bool × DB :=
  let r := check_message_limit db now u o cap
  if r.1 = false then (false, r.2)
  else
    let r1 := get_or_create_conversation r.2 now u o tok
    let r2 := save_message r1.2 now.ts r1.1.id "user" text "text" (some mid)
    (true, increment_message_count r2.2 now u o)

/-- `n` repeated message attempts at the same instant. -/
def attemptRun (now : Instant) (u o : Int) (tok : Option String)
    (text : String) (mid : Int) (cap : Nat) : Nat → DB → DB
  | 0, db => db
  | n + 1, db =>
    attemptRun now u o tok text mid cap n
      (attempt_user_message db now u o tok text mid cap).2

/-- An attempt against a same-day conversation below the cap is accepted
and moves the counter up by exactly one. -/
lemma attempt_accept_step (db : DB) (now : Instant) (u o : Int)
    (tok : Option String) (text : String) (mid : Int) (cap : Nat)
    (c : ConversationRow)
    (hc : db.conversations (u, o) = some c)
    (hd : c.last_message_date = now.date)
    (hk : c.message_count_today < cap) :
    (attempt_user_message db now u o tok text mid cap).1 = true ∧
    (attempt_user_message db now u o tok text mid cap).2.conversations (u, o)
      = some { c with
               message_count_today := c.message_count_today + 1,
               last_message := now.ts } := by
  have h1 : check_message_limit db now u o cap = (true, db) := by
    simp [check_message_limit, hc, hd, hk]
  simp only [attempt_user_message, h1]
  simp [get_or_create_conversation, hc, save_message, increment_message_count]

/-- An attempt against a same-day conversation at or above the cap is
denied and leaves the store untouched. -/
lemma attempt_deny_step (db : DB) (now : Instant) (u o : Int)
    (tok : Option String) (text : String) (mid : Int) (cap : Nat)
    (c : ConversationRow)
    (hc : db.conversations (u, o) = some c)
    (hd : c.last_message_date = now.date)
    (hk : ¬ c.message_count_today < cap) :
    (attempt_user_message db now u o tok text mid cap).1 = false ∧
    (attempt_user_message db now u o tok text mid cap).2 = db := by
  have h1 : check_message_limit db now u o cap = (false, db) := by
    simp [check_message_limit, hc, hd, hk]
  simp [attempt_user_message, h1]

/-- An attempt against a conversation dated before today is accepted (the
lazy reset fires first). -/
lemma attempt_reset_step (db : DB) (now : Instant) (u o : Int)
    (tok : Option String) (text : String) (mid : Int) (cap : Nat)
    (c : ConversationRow)
    (hc : db.conversations (u, o) = some c)
    (hd : c.last_message_date ≠ now.date) :
    (attempt_user_message db now u o tok text mid cap).1 = true := by
  have h1 : (check_message_limit db now u o cap).1 = true := by
    simp [check_message_limit, hc, hd]
  simp [attempt_user_message, h1]

/-- Running `n` attempts on a same-day conversation with headroom for all
of them accepts every attempt and advances the counter by exactly `n`. -/
lemma attemptRun_counts (now : Instant) (u o : Int) (tok : Option String)
    (text : String) (mid : Int) (cap : Nat) :
    ∀ (n : Nat) (db : DB) (c : ConversationRow),
      db.conversations (u, o) = some c →
      c.last_message_date = now.date →
      c.message_count_today + n ≤ cap →
      (∀ j, j < n →
        (attempt_user_message (attemptRun now u o tok text mid cap j db)
          now u o tok text mid cap).1 = true) ∧
      ∃ c', (attemptRun now u o tok text mid cap n db).conversations (u, o)
          = some c' ∧
        c'.message_count_today = c.message_count_today + n ∧
        c'.last_message_date = now.date := by
  intro n
  induction n with
  | zero =>
    intro db c hc hd _
    exact ⟨fun j hj => absurd hj (by omega), c, hc, by omega, hd⟩
  | succ m ih =>
    intro db c hc hd hle
    have hk : c.message_count_today < cap := by omega
    obtain ⟨hstep, hrow⟩ :=
      attempt_accept_step db now u o tok text mid cap c hc hd hk
    obtain ⟨hacc, c', hc', hcount, hdate⟩ :=
      ih (attempt_user_message db now u o tok text mid cap).2
        { c with
            message_count_today := c.message_count_today + 1,
            last_message := now.ts }
        hrow hd (by simp; omega)
    refine ⟨?_, c', hc', by simp at hcount; omega, hdate⟩
    intro j hj
    cases j with
    | zero => exact hstep
    | succ j' => exact hacc j' (by omega)

/-- C3 (confirmed): starting from a conversation whose counter is 0 for
today, all `cap` attempts today are accepted; the `(cap+1)`-th attempt
today is denied; the first attempt on a different calendar day is
accepted; and the counter is reset at most once per calendar day — a
same-day limit check mutates nothing, the first check on the new day
resets the counter to 0 and stamps the new date, and a second check on
that day mutates nothing further. -/
theorem C3_daily_quota_lifecycle (db : DB) (now now' : Instant) (u o : Int)
    (tok : Option String) (text : String) (mid : Int) (cap : Nat)
    (c : ConversationRow)
    (hc : db.conversations (u, o) = some c)
    (h0 : c.message_count_today = 0)
    (hd : c.last_message_date = now.date)
    (hday : now'.date ≠ now.date) :
    (∀ j, j < cap →
      (attempt_user_message (attemptRun now u o tok text mid cap j db)
        now u o tok text mid cap).1 = true) ∧
    (attempt_user_message (attemptRun now u o tok text mid cap cap db)
      now u o tok text mid cap).1 = false ∧
    (attempt_user_message (attemptRun now u o tok text mid cap cap db)
      now' u o tok text mid cap).1 = true ∧
    (check_message_limit (attemptRun now u o tok text mid cap cap db)
      now u o cap).2 = attemptRun now u o tok text mid cap cap db ∧
    ((check_message_limit (attemptRun now u o tok text mid cap cap db)
        now' u o cap).2.conversations (u, o)).map
      ConversationRow.message_count_today = some 0 ∧
    ((check_message_limit (attemptRun now u o tok text mid cap cap db)
        now' u o cap).2.conversations (u, o)).map
      ConversationRow.last_message_date = some now'.date ∧
    (check_message_limit
        (check_message_limit (attemptRun now u o tok text mid cap cap db)
          now' u o cap).2 now' u o cap).2
      = (check_message_limit (attemptRun now u o tok text mid cap cap db)
          now' u o cap).2 := by
  obtain ⟨hacc, c', hc', hcount, hdate⟩ :=
    attemptRun_counts now u o tok text mid cap cap db c hc hd (by omega)
  have hfull : ¬ c'.message_count_today < cap := by omega
  have hne : c'.last_message_date ≠ now'.date := by
    rw [hdate]; exact fun h => hday h.symm
  refine ⟨hacc, ?_, ?_, ?_, ?_, ?_, ?_⟩
  · exact (attempt_deny_step _ now u o tok text mid cap c' hc' hdate hfull).1
  · exact attempt_reset_step _ now' u o tok text mid cap c' hc' hne
  · simp [check_message_limit, hc', hdate]
  · simp [check_message_limit, hc', hne]
  · simp [check_message_limit, hc', hne]
  · have hreset :
        (check_message_limit (attemptRun now u o tok text mid cap cap db)
          now' u o cap).2.conversations (u, o)
        = some { c' with
                 message_count_today := 0,
                 last_message_date := now'.date } := by
      simp [check_message_limit, hc', hne]
    generalize hG : (check_message_limit (attemptRun now u o tok text mid cap cap db)
      now' u o cap).2 = dbR at hreset ⊢
    simp [check_message_limit, hreset]

/-- An observation on day 6, the calendar day after `nowMid`. -/
def nowNext : Instant := { ts := 6, date := 6, hour := 10, minute := 0 }

/-- C3 witness: the theorem applied to `freeConv` (counter 0 on day 5)
with the configured cap FREE_MODE_MESSAGE_LIMIT: the attempt after `cap`
accepted ones is denied that day, and the first attempt on day 6 is
accepted. -/
theorem C3_daily_quota_lifecycle_witness :
    (dbFree.conversations (7, 1) = some freeConv ∧
      freeConv.message_count_today = 0 ∧
      freeConv.last_message_date = nowMid.date ∧
      nowNext.date ≠ nowMid.date) ∧
    (attempt_user_message
        (attemptRun nowMid 7 1 none "hi" 9 FREE_MODE_MESSAGE_LIMIT
          FREE_MODE_MESSAGE_LIMIT dbFree)
        nowMid 7 1 none "hi" 9 FREE_MODE_MESSAGE_LIMIT).1 = false ∧
    (attempt_user_message
        (attemptRun nowMid 7 1 none "hi" 9 FREE_MODE_MESSAGE_LIMIT
          FREE_MODE_MESSAGE_LIMIT dbFree)
        nowNext 7 1 none "hi" 9 FREE_MODE_MESSAGE_LIMIT).1 = true :=
  ⟨⟨by decide, rfl, rfl, by decide⟩,
    (C3_daily_quota_lifecycle dbFree nowMid nowNext 7 1 none "hi" 9
      FREE_MODE_MESSAGE_LIMIT freeConv (by decide) rfl rfl (by decide)).2.1,
    (C3_daily_quota_lifecycle dbFree nowMid nowNext 7 1 none "hi" 9
      FREE_MODE_MESSAGE_LIMIT freeConv (by decide) rfl rfl (by decide)).2.2.1⟩

/-- Deleting occurrences from the empty string yields the empty string. -/
lemma removeOccurrences_nil (pat : List Char) : removeOccurrences pat [] = [] := by
  rw [removeOccurrences]
  rw [dif_neg]
  rintro ⟨h1, h2⟩
  exact h1 (List.prefix_nil.mp h2)

/-- When the pattern heads the string, deletion skips past it. -/
lemma removeOccurrences_of_prefix (pat s : List Char) (hne : pat ≠ [])
    (hp : pat <+: s) :
    removeOccurrences pat s = removeOccurrences pat (s.drop pat.length) := by
  rw [removeOccurrences]
  rw [dif_pos ⟨hne, hp⟩]

/-- When the pattern does not head the string, deletion keeps the first
character and continues. -/
lemma removeOccurrences_cons_of_not (pat : List Char) (c : Char) (s : List Char)
    (hnp : ¬ pat <+: (c :: s)) :
    removeOccurrences pat (c :: s) = c :: removeOccurrences pat s := by
  rw [removeOccurrences]
  rw [dif_neg (fun h => hnp h.2)]

/-- The footer block has no nontrivial self-overlap: no proper nonempty
suffix of it is also a prefix of it. -/
lemma footerBlock_no_border :
    ∀ k, k < footerBlock.length → 0 < k →
      footerBlock.drop k ≠ footerBlock.take (footerBlock.length - k) := by
  decide

/-- FOOTER_TEXT ends the footer block. -/
lemma footer_suffix_block : FOOTER_TEXT.toList <:+ footerBlock :=
  ⟨"\n\n—\n".toList, rfl⟩

/-- In `m ++ footerBlock` with FOOTER_TEXT nowhere in the nonempty `m`,
the footer block cannot start before position `m.length`: a full match
inside `m` would put FOOTER_TEXT inside `m`, and a match straddling the
boundary would be a self-overlap of the block. -/
lemma footerBlock_not_prefix (m : List Char) (hne : m ≠ [])
    (hm : ¬ FOOTER_TEXT.toList <:+: m) :
    ¬ (footerBlock <+: m ++ footerBlock) := by
  intro hp
  have h1 : footerBlock = (m ++ footerBlock).take footerBlock.length :=
    List.prefix_iff_eq_take.mp hp
  rw [List.take_append_eq_append_take] at h1
  rcases le_or_lt footerBlock.length m.length with hle | hlt
  · rw [Nat.sub_eq_zero_of_le hle, List.take_zero, List.append_nil] at h1
    have h2 : footerBlock <+: m := h1 ▸ List.take_prefix _ _
    exact hm (footer_suffix_block.isInfix.trans h2.isInfix)
  · rw [List.take_of_length_le (le_of_lt hlt)] at h1
    have h2 : footerBlock.drop m.length
        = footerBlock.take (footerBlock.length - m.length) := by
      conv_lhs => rw [h1]
      rw [List.drop_left]
    exact footerBlock_no_border m.length hlt (List.length_pos.mpr hne) h2

/-- Deleting every occurrence of the footer block from `m ++ footerBlock`
recovers `m` whenever FOOTER_TEXT does not occur in `m`: the only
occurrence of the block is the appended one. -/
lemma removeOccurrences_append_footer (m : List Char)
    (hm : ¬ FOOTER_TEXT.toList <:+: m) :
    removeOccurrences footerBlock (m ++ footerBlock) = m := by
  induction m with
  | nil =>
    rw [List.nil_append,
      removeOccurrences_of_prefix footerBlock footerBlock (by decide)
        (List.prefix_refl _),
      List.drop_length, removeOccurrences_nil]
  | cons c m' ih =>
    have hm' : ¬ FOOTER_TEXT.toList <:+: m' := fun h => hm (List.infix_cons h)
    have hnp : ¬ footerBlock <+: (c :: (m' ++ footerBlock)) := by
      have := footerBlock_not_prefix (c :: m') (by simp) hm
      rwa [List.cons_append] at this
    rw [List.cons_append, removeOccurrences_cons_of_not _ _ _ hnp, ih hm']

/-- C10 (confirmed): `add_footer` appends exactly one footer block at the
end of the message, and for every message that does not already contain
the footer text, `remove_footer (add_footer m) = m`. -/
theorem C10_footer_roundtrip (m : List Char) :
    add_footer m = m ++ footerBlock ∧
    (¬ FOOTER_TEXT.toList <:+: m → remove_footer (add_footer m) = m) := by
  refine ⟨rfl, fun hm => ?_⟩
  have hinf : FOOTER_TEXT.toList <:+: m ++ footerBlock :=
    ⟨m ++ "\n\n—\n".toList, [], by simp [footerBlock]⟩
  unfold remove_footer add_footer
  rw [if_pos hinf]
  exact removeOccurrences_append_footer m hm

/-- C10 witness: the round trip evaluated on the message "hi". -/
theorem C10_footer_roundtrip_witness :
    (¬ FOOTER_TEXT.toList <:+: "hi".toList) ∧
    add_footer "hi".toList = "hi".toList ++ footerBlock ∧
    remove_footer (add_footer "hi".toList) = "hi".toList :=
  ⟨by decide, (C10_footer_roundtrip "hi".toList).1,
    (C10_footer_roundtrip "hi".toList).2 (by decide)⟩

end ConnectProBot
